import Mathlib

/-!
Verification development for the Zoho CRM name updater
(src/update_crm_names_windows.py).

The Python source is shallowly embedded: every network call is a
parameter of the embedded function (an oracle value describing the HTTP
response the server returned, or the exception text the transport
raised), file contents are passed as lists of lines or parsed CSV rows,
and wall-clock time is an explicit integer parameter.  JSON response
bodies are modelled by the record shape the script actually reads
(a data array whose elements carry an id, an optional Full_Name and an
optional code field).  Console output is modelled only where a claim
speaks about it (the prints of update_contact_name), as a list of
printed strings; decorative emoji and quote characters of the console
text are omitted from those strings.
-/

namespace ZohoCRM

/-- Auxiliary worker for Python str.split with no arguments: splits a
character list on runs of whitespace, discarding empty fields.  The
accumulator holds the characters of the current field in reverse. -/
def splitWsAux : List Char → List Char → List (List Char)
  | [], acc => if acc.isEmpty then [] else [acc.reverse]
  | c :: cs, acc =>
      if c.isWhitespace then
        if acc.isEmpty then splitWsAux cs []
        else acc.reverse :: splitWsAux cs []
      else splitWsAux cs (c :: acc)

/-- Model of Python str.split() (no separator argument): whitespace
runs separate the fields, leading and trailing whitespace is ignored. -/
def pySplit (s : String) : List String :=
  (splitWsAux s.data []).map fun cs => ⟨cs⟩

/-- Model of Python str.strip on a character list. -/
def stripChars (cs : List Char) : List Char :=
  ((cs.dropWhile Char.isWhitespace).reverse.dropWhile Char.isWhitespace).reverse

/-- Model of Python str.strip. -/
def pyStrip (s : String) : String := ⟨stripChars s.data⟩

/-- Model of Python str.lower (per-character lowering). -/
def pyLower (s : String) : String := ⟨s.data.map Char.toLower⟩

/-- Model of Python str.startswith. -/
def pyStartsWith (s pat : String) : Bool :=
  pat.data.isPrefixOf s.data

/-- Substring test on character lists: true when sub occurs as a
contiguous run inside s. -/
def subOccursIn (sub : List Char) : List Char → Bool
  | [] => sub.isEmpty
  | c :: rest => sub.isPrefixOf (c :: rest) || subOccursIn sub rest

/-- Model of the Python membership test sub in s on strings. -/
def pyIn (sub s : String) : Bool := subOccursIn sub.data s.data

/-- Model of Python sep.join(parts). -/
def pyJoin (sep : String) : List String → String
  | [] => ""
  | [x] => x
  | x :: y :: xs => x ++ sep ++ pyJoin sep (y :: xs)

/-! ## ZohoTokenManager (src lines 46-211) -/

/-- Mutable token state of ZohoTokenManager: the access token and the
epoch-seconds expiry stamp (Python ints). -/
structure TokenState where
  access_token : String
  token_expires_at : Int
  deriving Repr, DecidableEq

/-- Model of ZohoTokenManager.is_token_expired (src lines 91-94):
current_time >= token_expires_at. -/
def is_token_expired (st : TokenState) (now : Int) : Bool :=
  decide (st.token_expires_at ≤ now)

/-- Response of the OAuth token endpoint for one refresh attempt:
some (access_token, expires_in) on HTTP 200 (expires_in is absent from
the body when the Option is none, in which case the source defaults it
to 3600); none models a non-200 response, which the source turns into a
raised exception. -/
def RefreshResp := Option (String × Option Int)

/-- Model of ZohoTokenManager.refresh_access_token (src lines 96-124).
On a 200 response the new token is stored and
token_expires_at := int(time.time()) + expires_in - 60; on anything
else the function raises. -/
def refresh_access_token (_st : TokenState) (now : Int) (resp : RefreshResp) :
    Except String TokenState :=
  match resp with
  | some (tok, ein) =>
      let expires_in := ein.getD 3600
      .ok { access_token := tok, token_expires_at := now + expires_in - 60 }
  | none => .error "Failed to refresh token"

/-- Model of ZohoTokenManager.update_env_file replacing one line of the
credential file (the body of the for loop at src lines 135-141). -/
def env_replace_line (access_token : String) (expires_at : Int) (l : String) : String :=
  if pyStartsWith l "ZOHO_ACCESS_TOKEN=" then
    "ZOHO_ACCESS_TOKEN=" ++ access_token
  else if pyStartsWith l "ZOHO_TOKEN_EXPIRES_AT=" then
    "ZOHO_TOKEN_EXPIRES_AT=" ++ toString expires_at
  else l

/-- Model of ZohoTokenManager.update_env_file (src lines 126-149) at the
level of lines: every line is passed through the replacement loop, and
each of the two token lines is appended when no line of the file started
with its key (the token_updated / expires_updated flags). -/
def update_env_file (access_token : String) (expires_at : Int)
    (lines : List String) : List String :=
  let replaced := lines.map (env_replace_line access_token expires_at)
  let withTok :=
    if lines.any (fun l => pyStartsWith l "ZOHO_ACCESS_TOKEN=") then replaced
    else replaced ++ ["ZOHO_ACCESS_TOKEN=" ++ access_token]
  if lines.any (fun l => pyStartsWith l "ZOHO_TOKEN_EXPIRES_AT=") then withTok
  else withTok ++ ["ZOHO_TOKEN_EXPIRES_AT=" ++ toString expires_at]

/-- A credential-file line that starts with neither of the two token
keys: the lines update_env_file must leave untouched. -/
def nonKeyLine (l : String) : Bool :=
  !(pyStartsWith l "ZOHO_ACCESS_TOKEN=") && !(pyStartsWith l "ZOHO_TOKEN_EXPIRES_AT=")

/-- One element of a Zoho API data array, with exactly the fields the
script reads: the record id, the optional Full_Name of a search result
and the optional per-element code of an update result. -/
structure ZRec where
  id : String
  full_name : Option String
  code : Option String
  deriving Repr, DecidableEq

/-- Parsed JSON body of an API response as the script consumes it:
the data array. -/
structure ApiJson where
  data : List ZRec
  deriving Repr, DecidableEq

/-- Body of an HTTP response: empty text, non-empty text that fails
json parsing, or a parsed data array. -/
inductive Body where
  | empty : Body
  | invalidJson : Body
  | json : List ZRec → Body
  deriving Repr, DecidableEq

/-- An HTTP response delivered to make_api_call: status code and body. -/
structure HttpResp where
  status : Nat
  body : Body
  deriving Repr, DecidableEq

deriving instance DecidableEq for Except

/-- Result of one make_api_call invocation: the returned JSON or the
raised exception text, the number of refresh attempts performed, the
number of HTTP requests sent to the endpoint, and the token state the
manager is left in. -/
structure CallTrace where
  result : Except String ApiJson
  refreshes : Nat
  httpCalls : Nat
  state : TokenState
  deriving Repr, DecidableEq

/-- Endpoint normalization at src lines 162-163: a leading slash is
prefixed when missing. -/
def normalize_endpoint (endpoint : String) : String :=
  if pyStartsWith endpoint "/" then endpoint else "/" ++ endpoint

/-- Model of response.raise_for_status() followed by the body handling
of make_api_call (src lines 198-208): a 4xx/5xx status raises (the
requests exception is re-raised as the API-call-failed message), an
empty body yields an empty data array, a non-empty body that is not
valid JSON yields an empty data array on search endpoints and raises on
all others. -/
def handle_response (ep method : String) (r : HttpResp) : Except String ApiJson :=
  if 400 ≤ r.status then
    .error ("API call failed for " ++ method ++ " " ++ ep ++ ": HTTP " ++ toString r.status)
  else
    match r.body with
    | .empty => .ok ⟨[]⟩
    | .invalidJson =>
        if pyIn "/search" ep then .ok ⟨[]⟩
        else .error ("Invalid JSON response from " ++ method ++ " " ++ ep)
    | .json d => .ok ⟨d⟩

/-- The 401-handling core of make_api_call (src lines 183-208), entered
with a valid token in hand: the first response is examined; on status
401 one refresh is attempted (a failed refresh propagates as a raised
exception) and the request is reissued once with the new token, whose
response is then handled; on any other status the first response is
handled directly.  rdone counts refresh attempts already made by
get_valid_token. -/
def api_call_body (st : TokenState) (now : Int) (rfrNext : RefreshResp)
    (resp1 resp2 : HttpResp) (ep method : String) (rdone : Nat) : CallTrace :=
  if resp1.status == 401 then
    match refresh_access_token st now rfrNext with
    | .error e => ⟨.error e, rdone + 1, 1, st⟩
    | .ok st2 => ⟨handle_response ep method resp2, rdone + 1, 2, st2⟩
  else
    ⟨handle_response ep method resp1, rdone, 1, st⟩

/-- Model of ZohoTokenManager.make_api_call (src lines 158-211).
get_valid_token (src lines 151-156) runs first: an expired token causes
one refresh (consuming rfr0; a failed refresh propagates before any
HTTP request).  The endpoint is normalized, the request issued, and a
401 answered by one refresh and one retry (consuming the next unused
refresh oracle slot). -/
def make_api_call (st : TokenState) (now : Int) (rfr0 rfr1 : RefreshResp)
    (resp1 resp2 : HttpResp) (endpoint method : String) : CallTrace :=
  let ep := normalize_endpoint endpoint
  if is_token_expired st now then
    match refresh_access_token st now rfr0 with
    | .error e => ⟨.error e, 1, 0, st⟩
    | .ok st1 => api_call_body st1 now rfr1 resp1 resp2 ep method 1
  else
    api_call_body st now rfr0 resp1 resp2 ep method 0

/-! ## ZohoSheetFetcher.parse_csv_string and CRMNameUpdater._load_from_file
(src lines 273-309 and 359-387) -/

/-- A CSV row as csv.DictReader yields it: an association from column
name to cell text (row.get returns the default when the column is
absent, row[col] raises KeyError). -/
abbrev Row := List (String × String)

/-- Model of Python row.get(key, default) on a DictReader row. -/
def rowGet (row : Row) (key dflt : String) : String :=
  match row.lookup key with
  | some v => v
  | none => dflt

/-- The per-email vendor record both loaders build (the dict literal at
src lines 300-305 and 372-377). -/
structure Vendor where
  name : String
  nickname : String
  contact_email : String
  payment_emails : String
  deriving Repr, DecidableEq

/-- A Python dict from email keys to vendor records, in insertion
order.  Assignment to an existing key replaces the value in place;
assignment to a fresh key appends. -/
abbrev VendorMap := List (String × Vendor)

/-- Python dict assignment m[k] = v: replace in place when the key is
present, append otherwise. -/
def dictInsert (m : VendorMap) (k : String) (v : Vendor) : VendorMap :=
  if (m.lookup k).isSome then
    m.map fun kv => if kv.1 == k then (k, v) else kv
  else m ++ [(k, v)]

/-- The body of the row loop of ZohoSheetFetcher.parse_csv_string
(src lines 296-306): the key is the stripped, lowered Contact email
cell; rows with an empty key are skipped; optional columns default to
the empty string. -/
def csvStep (m : VendorMap) (row : Row) : VendorMap :=
  let email := pyLower (pyStrip (rowGet row "Contact email" ""))
  if email ≠ "" then
    dictInsert m email
      { name := pyStrip (rowGet row "Name" "")
        nickname := pyStrip (rowGet row "Nickname" "")
        contact_email := pyStrip (rowGet row "Contact email" "")
        payment_emails := pyStrip (rowGet row "Emails for payment receipts" "") }
  else m

/-- Model of ZohoSheetFetcher.parse_csv_string after the CSV text has
been parsed into rows (src lines 295-309).  The column-presence check
at lines 289-293 is over the header, not the rows, and is not needed by
the claims settled here. -/
def parse_csv_string (rows : List Row) : VendorMap :=
  rows.foldl csvStep []

/-- The body of the row loop of CRMNameUpdater._load_from_file
(src lines 369-377): Contact email and Name are indexed directly (a
missing column raises KeyError, which the enclosing handler turns into
sys.exit), there is no empty-key skip, and optional columns default to
the empty string. -/
def fileStep (m : VendorMap) (row : Row) : Except String VendorMap :=
  match row.lookup "Contact email", row.lookup "Name" with
  | some ce, some nm =>
      .ok (dictInsert m (pyLower (pyStrip ce))
        { name := pyStrip nm
          nickname := pyStrip (rowGet row "Nickname" "")
          contact_email := pyStrip ce
          payment_emails := pyStrip (rowGet row "Emails for payment receipts" "") })
  | _, _ => .error "KeyError"

/-- Model of CRMNameUpdater._load_from_file after the CSV file has been
parsed into rows (src lines 359-387). -/
def load_from_file (rows : List Row) : Except String VendorMap :=
  rows.foldlM fileStep []

/-! ## CRMNameUpdater (src lines 312-548) -/

/-- The results dictionary of CRMNameUpdater.__init__
(src lines 330-337), with processed_contacts carrying the per-record
outcome dicts. -/
structure Outcome where
  email : String
  vendor_name : String
  status : String
  current_name : Option String
  updated_name : Option String
  contact_id : Option String
  deriving Repr, DecidableEq

/-- The run-scoped results accumulator of CRMNameUpdater
(src lines 330-337). -/
structure Results where
  total_vendors : Nat
  contacts_found : Nat
  names_updated : Nat
  already_correct : Nat
  errors : List String
  processed_contacts : List Outcome
  deriving Repr, DecidableEq

/-- The initial results dictionary (src lines 330-337): all counters
zero, no errors, no processed contacts. -/
def init_results (total_vendors : Nat) : Results :=
  { total_vendors, contacts_found := 0, names_updated := 0,
    already_correct := 0, errors := [], processed_contacts := [] }

/-- Model of CRMNameUpdater.search_contact_by_email (src lines 389-412)
given the outcome of its make_api_call: a non-empty data array yields
its first element, an empty one yields none, and a raised exception is
caught, its message appended to the run error list, and none returned. -/
def search_contact_by_email (res : Results) (email : String)
    (apiResult : Except String ApiJson) : Option ZRec × Results :=
  match apiResult with
  | .ok j =>
      match j.data with
      | [] => (none, res)
      | c :: _ => (some c, res)
  | .error e =>
      (none, { res with
        errors := res.errors ++ ["Error searching for email " ++ email ++ ": " ++ e] })

/-- The name-splitting logic of CRMNameUpdater.update_contact_name
(src lines 422-429): new_name.strip().split(); one part maps to
(part, empty last name), several parts to (first, space-joined rest),
and zero parts make name_parts[0] raise IndexError, modelled as none. -/
def splitName (new_name : String) : Option (String × String) :=
  match pySplit (pyStrip new_name) with
  | [] => none
  | [x] => some (x, "")
  | p :: rest => some (p, pyJoin " " rest)

/-- The update payload built at src lines 433-439: one record with the
contact id and the split name fields. -/
structure UpdatePayload where
  id : String
  first_name : String
  last_name : String
  deriving Repr, DecidableEq

/-- Result of one CRMNameUpdater.update_contact_name invocation: the
returned boolean, the payload of the PUT call when one was issued, the
console lines the function printed (decorations omitted), and the
updated results accumulator. -/
structure UpdateRes where
  success : Bool
  payload : Option UpdatePayload
  printed : List String
  res : Results
  deriving Repr, DecidableEq

/-- Model of CRMNameUpdater.update_contact_name (src lines 414-457)
given the outcome updResp of its make_api_call.  Equal names short cut
with no write call and bump already_correct; otherwise the name is
split (a whitespace-only name raises IndexError, caught by the handler
that appends the exception message and returns False, before any write
call); the PUT response must carry code SUCCESS in its first data
element to count as updated, anything else prints the failure message
without touching the error list; a raised call appends the exception
message to the error list. -/
def update_contact_name (res : Results) (contact_id current_name new_name : String)
    (updResp : Except String ApiJson) : UpdateRes :=
  if current_name == new_name then
    { success := true, payload := none,
      printed := ["Name is already correct: " ++ current_name],
      res := { res with already_correct := res.already_correct + 1 } }
  else
    match splitName new_name with
    | none =>
        let msg := "Error updating name for contact " ++ contact_id ++ ": list index out of range"
        { success := false, payload := none,
          printed := [msg],
          res := { res with errors := res.errors ++ [msg] } }
    | some (first_name, last_name) =>
        let payload : UpdatePayload := ⟨contact_id, first_name, last_name⟩
        let updatingMsg := "Updating: First=" ++ first_name ++ ", Last=" ++ last_name
        match updResp with
        | .error e =>
            let msg := "Error updating name for contact " ++ contact_id ++ ": " ++ e
            { success := false, payload := some payload,
              printed := [updatingMsg, msg],
              res := { res with errors := res.errors ++ [msg] } }
        | .ok j =>
            match j.data with
            | d :: _ =>
                if d.code == some "SUCCESS" then
                  { success := true, payload := some payload,
                    printed := [updatingMsg,
                      "Successfully updated name: " ++ current_name ++ " -> " ++ new_name],
                    res := { res with names_updated := res.names_updated + 1 } }
                else
                  { success := false, payload := some payload,
                    printed := [updatingMsg,
                      "Failed to update name for contact " ++ contact_id],
                    res := res }
            | [] =>
                { success := false, payload := some payload,
                  printed := [updatingMsg,
                    "Failed to update name for contact " ++ contact_id],
                  res := res }

/-- Result of one CRMNameUpdater.process_email invocation: the outcome
dict it returns, the payload of the update call when one was issued,
the lines printed by the update step, and the updated results
accumulator. -/
structure ProcessRes where
  outcome : Outcome
  payload : Option UpdatePayload
  printed : List String
  res : Results
  deriving Repr, DecidableEq

/-- Model of CRMNameUpdater.process_email (src lines 459-486) given the
outcomes of the search call and of the optional update call.  When no
contact is returned (no match or a caught search exception alike) the
status stays not_found; on a match contacts_found is bumped and the
status follows update_contact_name: error on False, updated or
already_correct on True according to whether the names differed. -/
def process_email (res : Results) (email vendor_name : String)
    (searchResp updResp : Except String ApiJson) : ProcessRes :=
  let r0 : Outcome :=
    { email, vendor_name, status := "not_found",
      current_name := none, updated_name := none, contact_id := none }
  match search_contact_by_email res email searchResp with
  | (none, res1) => ⟨r0, none, [], res1⟩
  | (some c, res1) =>
      let current_name := c.full_name.getD "Unknown"
      let res2 := { res1 with contacts_found := res1.contacts_found + 1 }
      let u := update_contact_name res2 c.id current_name vendor_name updResp
      let status :=
        if u.success then
          if current_name ≠ vendor_name then "updated" else "already_correct"
        else "error"
      ⟨{ r0 with
          status := status
          current_name := some current_name
          updated_name := some vendor_name
          contact_id := some c.id },
        u.payload, u.printed, u.res⟩

/-- One record handed to the batch driver: the vendor-map entry plus
the oracle responses its two potential network calls receive. -/
structure RecordEnv where
  email : String
  vendor_name : String
  searchResp : Except String ApiJson
  updResp : Except String ApiJson
  deriving Repr, DecidableEq

/-- One iteration of the loop of CRMNameUpdater.process_all_vendors
(src lines 530-545): process the record and append its outcome to
processed_contacts.  The rate-limit sleep and the every-10-records
checkpoint do not touch the accumulator. -/
def batch_step (res : Results) (e : RecordEnv) : Results :=
  let pr := process_email res e.email e.vendor_name e.searchResp e.updResp
  { pr.res with processed_contacts := pr.res.processed_contacts ++ [pr.outcome] }

/-- Model of the loop of CRMNameUpdater.process_all_vendors: the
records are processed strictly in order, each one appending exactly one
outcome. -/
def run_batch (res : Results) : List RecordEnv → Results
  | [] => res
  | e :: rest => run_batch (batch_step res e) rest

/-- The counter bookkeeping process_email and update_contact_name keep
over the appended outcomes: contacts_found splits into names_updated,
already_correct and the error outcomes, and the outcome count splits
into contacts_found and the not_found outcomes. -/
def counters_invariant (res : Results) : Prop :=
  res.contacts_found = res.names_updated + res.already_correct
      + (res.processed_contacts.countP fun o => o.status == "error") ∧
  res.processed_contacts.length = res.contacts_found
      + (res.processed_contacts.countP fun o => o.status == "not_found")

/-! ## Theorems -/

/-- Claim C2: when an authenticated call whose token is still valid
receives HTTP 401 on its first response, make_api_call performs exactly
one token refresh and retries the call exactly once with the refreshed
token; a second 401 surfaces as a raised error with no further refresh
or retry. -/
theorem make_api_call_single_retry_on_401
    (st : TokenState) (now : Int) (tok : String) (ein : Option Int) (rfr1 : RefreshResp)
    (resp1 resp2 : HttpResp) (endpoint method : String)
    (hvalid : is_token_expired st now = false)
    (h401 : resp1.status = 401) :
    (make_api_call st now (some (tok, ein)) rfr1 resp1 resp2 endpoint method).refreshes = 1 ∧
    (make_api_call st now (some (tok, ein)) rfr1 resp1 resp2 endpoint method).httpCalls = 2 ∧
    (make_api_call st now (some (tok, ein)) rfr1 resp1 resp2 endpoint method).state.access_token
      = tok ∧
    (resp2.status = 401 →
      (make_api_call st now (some (tok, ein)) rfr1 resp1 resp2 endpoint method).result
        = .error ("API call failed for " ++ method ++ " "
            ++ normalize_endpoint endpoint ++ ": HTTP 401")) := by
  simp only [make_api_call, hvalid, Bool.false_eq_true, if_false,
    api_call_body, h401, refresh_access_token]
  refine ⟨rfl, rfl, rfl, fun h2 => ?_⟩
  have ht : ": HTTP " ++ toString (401 : Nat) = ": HTTP 401" := by decide
  have h4 : ((400 : Nat) ≤ 401) = True := by simp
  simp only [handle_response, h2, h4, if_true, String.append_assoc, ht]
  simp

/-- Witness for make_api_call_single_retry_on_401 at a concrete input:
a valid token, both responses 401. -/
theorem make_api_call_single_retry_on_401_witness :
    is_token_expired ⟨"tok", 50⟩ 10 = false ∧
    (make_api_call ⟨"tok", 50⟩ 10 (some ("t2", some 3600)) none
        ⟨401, .empty⟩ ⟨401, .empty⟩ "/crm/v2/Contacts" "PUT").refreshes = 1 ∧
    (make_api_call ⟨"tok", 50⟩ 10 (some ("t2", some 3600)) none
        ⟨401, .empty⟩ ⟨401, .empty⟩ "/crm/v2/Contacts" "PUT").httpCalls = 2 ∧
    (make_api_call ⟨"tok", 50⟩ 10 (some ("t2", some 3600)) none
        ⟨401, .empty⟩ ⟨401, .empty⟩ "/crm/v2/Contacts" "PUT").result
      = .error "API call failed for PUT /crm/v2/Contacts: HTTP 401" := by
  have h := make_api_call_single_retry_on_401 ⟨"tok", 50⟩ 10 "t2" (some 3600) none
    ⟨401, .empty⟩ ⟨401, .empty⟩ "/crm/v2/Contacts" "PUT" (by decide) rfl
  exact ⟨by decide, h.1, h.2.1, by simpa using h.2.2.2 rfl⟩

/-- Claim C3, counterexample: a successful refresh performed while the
stored expiry stamp is far in the future (reachable through the
unconditional 401-path refresh) produces a new expires_at that is NOT
strictly greater than the old one. -/
theorem refresh_not_monotone_counterexample :
    refresh_access_token ⟨"t", 10000⟩ 100 (some ("t2", some 3600))
      = .ok ⟨"t2", 3640⟩ ∧ ¬ ((10000 : Int) < 3640) := by decide

/-- Claim C3 as amended: every successful refresh sets
expires_at = now + expires_in - 60, and when the refresh happens with
the old token expired and the provider grants more than 60 seconds, the
new expires_at is strictly greater than the old one and
is_token_expired evaluated at the same instant returns false. -/
theorem refresh_expiry_amended
    (st : TokenState) (now : Int) (tok : String) (ein : Int) (st2 : TokenState)
    (hexp : is_token_expired st now = true)
    (hbuf : 60 < ein)
    (hr : refresh_access_token st now (some (tok, some ein)) = .ok st2) :
    st2.token_expires_at = now + ein - 60 ∧
    st.token_expires_at < st2.token_expires_at ∧
    is_token_expired st2 now = false := by
  simp only [refresh_access_token, Option.getD_some, Except.ok.injEq] at hr
  subst hr
  simp only [is_token_expired, decide_eq_true_eq] at hexp
  refine ⟨rfl, ?_, ?_⟩
  · dsimp only
    omega
  · simp only [is_token_expired, decide_eq_false_iff_not]
    omega

/-- Witness for refresh_expiry_amended at a concrete input: an expired
token refreshed at time 10 with a 3600-second lifetime. -/
theorem refresh_expiry_amended_witness :
    is_token_expired ⟨"t", 5⟩ 10 = true ∧ (60 : Int) < 3600 ∧
    refresh_access_token ⟨"t", 5⟩ 10 (some ("t2", some 3600)) = .ok ⟨"t2", 3550⟩ ∧
    (3550 : Int) = 10 + 3600 - 60 ∧ (5 : Int) < 3550 ∧
    is_token_expired ⟨"t2", 3550⟩ 10 = false := by
  have h := refresh_expiry_amended ⟨"t", 5⟩ 10 "t2" 3600 ⟨"t2", 3550⟩
    (by decide) (by decide) (by decide)
  exact ⟨by decide, by decide, by decide, h.1, h.2.1, h.2.2⟩

/-- Claim C9: on a 2xx response, an empty body is returned as an empty
data array; a non-empty body that fails JSON parsing is returned as an
empty data array when the normalized endpoint contains /search, and
raises the invalid-JSON error on every other endpoint. -/
theorem make_api_call_2xx_body_handling
    (st : TokenState) (now : Int) (rfr0 rfr1 : RefreshResp)
    (resp1 resp2 : HttpResp) (endpoint method : String)
    (hvalid : is_token_expired st now = false)
    (hlo : 200 ≤ resp1.status) (hhi : resp1.status < 300) :
    (resp1.body = .empty →
      (make_api_call st now rfr0 rfr1 resp1 resp2 endpoint method).result = .ok ⟨[]⟩) ∧
    (resp1.body = .invalidJson →
      (pyIn "/search" (normalize_endpoint endpoint) = true →
        (make_api_call st now rfr0 rfr1 resp1 resp2 endpoint method).result = .ok ⟨[]⟩) ∧
      (pyIn "/search" (normalize_endpoint endpoint) = false →
        (make_api_call st now rfr0 rfr1 resp1 resp2 endpoint method).result
          = .error ("Invalid JSON response from " ++ method ++ " "
              ++ normalize_endpoint endpoint))) := by
  have hne : (resp1.status == 401) = false := by
    simp only [beq_eq_false_iff_ne]
    omega
  have hnot4xx : ¬ (400 ≤ resp1.status) := by omega
  simp only [make_api_call, hvalid, Bool.false_eq_true, if_false,
    api_call_body, hne, handle_response, hnot4xx]
  constructor
  · intro hb
    simp [hb]
  · intro hb
    constructor
    · intro hs
      simp [hb, hs]
    · intro hs
      simp [hb, hs]

/-- Witness for make_api_call_2xx_body_handling at concrete inputs:
a 200 response with an unparsable body on a search endpoint comes back
as an empty data array. -/
theorem make_api_call_2xx_body_handling_witness :
    is_token_expired ⟨"tok", 50⟩ 10 = false ∧
    (make_api_call ⟨"tok", 50⟩ 10 none none ⟨200, .invalidJson⟩ ⟨200, .empty⟩
        "/crm/v2/Contacts/search?criteria=x" "GET").result = .ok ⟨[]⟩ := by
  have h := make_api_call_2xx_body_handling ⟨"tok", 50⟩ 10 none none
    ⟨200, .invalidJson⟩ ⟨200, .empty⟩ "/crm/v2/Contacts/search?criteria=x" "GET"
    (by decide) (by decide) (by decide)
  exact ⟨by decide, (h.2 rfl).1 (by decide)⟩

/-- Helper: a string extended past a given pattern starts with that
pattern. -/
theorem pyStartsWith_append (k a : String) : pyStartsWith (k ++ a) k = true := by
  unfold pyStartsWith
  rw [String.data_append, List.isPrefixOf_iff_prefix]
  exact k.data.prefix_append a.data

/-- Helper: the replacement loop of update_env_file does not change the
multiset of lines that start with neither token key: applied linewise
it keeps such lines and turns key lines into key lines. -/
theorem filter_nonKey_map_replace (a : String) (e : Int) (ls : List String) :
    (ls.map (env_replace_line a e)).filter nonKeyLine = ls.filter nonKeyLine := by
  induction ls with
  | nil => rfl
  | cons l ls ih =>
    simp only [List.map_cons, List.filter_cons]
    by_cases hA : pyStartsWith l "ZOHO_ACCESS_TOKEN=" = true
    · have hr : env_replace_line a e l = "ZOHO_ACCESS_TOKEN=" ++ a := by
        unfold env_replace_line
        simp [hA]
      have h1 : nonKeyLine l = false := by
        simp [nonKeyLine, hA]
      have h2 : nonKeyLine ("ZOHO_ACCESS_TOKEN=" ++ a) = false := by
        simp [nonKeyLine, pyStartsWith_append]
      rw [hr]
      simp [h1, h2, ih]
    · by_cases hE : pyStartsWith l "ZOHO_TOKEN_EXPIRES_AT=" = true
      · have hr : env_replace_line a e l = "ZOHO_TOKEN_EXPIRES_AT=" ++ toString e := by
          unfold env_replace_line
          simp [hA, hE]
        have h1 : nonKeyLine l = false := by
          simp [nonKeyLine, hE]
        have h2 : nonKeyLine ("ZOHO_TOKEN_EXPIRES_AT=" ++ toString e) = false := by
          simp [nonKeyLine, pyStartsWith_append]
        rw [hr]
        simp [h1, h2, ih]
      · have hr : env_replace_line a e l = l := by
          unfold env_replace_line
          simp [hA, hE]
        have h1 : nonKeyLine l = true := by
          simp [nonKeyLine, hA, hE]
        rw [hr]
        simp [h1, ih]

/-- Claim C8: rewriting the credential file after a refresh keeps every
line that starts with neither token key byte-for-byte unchanged and in
its original order; a line starting with the access-token key is
replaced in place by the new access-token line, a line starting with
the expires-at key by the new expires-at line; and the two token lines
are appended, access token first, exactly when no line for the
respective key was present. -/
theorem update_env_file_frame (a : String) (e : Int) (ls : List String) :
    (update_env_file a e ls).filter nonKeyLine = ls.filter nonKeyLine ∧
    (∀ i l, ls.get? i = some l →
      (pyStartsWith l "ZOHO_ACCESS_TOKEN=" = true →
        (update_env_file a e ls).get? i = some ("ZOHO_ACCESS_TOKEN=" ++ a)) ∧
      (pyStartsWith l "ZOHO_ACCESS_TOKEN=" = false →
        pyStartsWith l "ZOHO_TOKEN_EXPIRES_AT=" = true →
        (update_env_file a e ls).get? i = some ("ZOHO_TOKEN_EXPIRES_AT=" ++ toString e)) ∧
      (nonKeyLine l = true → (update_env_file a e ls).get? i = some l)) ∧
    (update_env_file a e ls).length = ls.length
      + (if ls.any (fun l => pyStartsWith l "ZOHO_ACCESS_TOKEN=") then 0 else 1)
      + (if ls.any (fun l => pyStartsWith l "ZOHO_TOKEN_EXPIRES_AT=") then 0 else 1) ∧
    (update_env_file a e ls).drop ls.length =
      (if ls.any (fun l => pyStartsWith l "ZOHO_ACCESS_TOKEN=") then []
        else ["ZOHO_ACCESS_TOKEN=" ++ a])
      ++ (if ls.any (fun l => pyStartsWith l "ZOHO_TOKEN_EXPIRES_AT=") then []
        else ["ZOHO_TOKEN_EXPIRES_AT=" ++ toString e]) := by
  have hshape : update_env_file a e ls = ls.map (env_replace_line a e)
      ++ ((if ls.any (fun l => pyStartsWith l "ZOHO_ACCESS_TOKEN=") then []
            else ["ZOHO_ACCESS_TOKEN=" ++ a])
          ++ (if ls.any (fun l => pyStartsWith l "ZOHO_TOKEN_EXPIRES_AT=") then []
            else ["ZOHO_TOKEN_EXPIRES_AT=" ++ toString e])) := by
    unfold update_env_file
    by_cases hA : ls.any (fun l => pyStartsWith l "ZOHO_ACCESS_TOKEN=") <;>
      by_cases hE : ls.any (fun l => pyStartsWith l "ZOHO_TOKEN_EXPIRES_AT=") <;>
      simp [hA, hE]
  refine ⟨?_, ?_, ?_, ?_⟩
  · rw [hshape, List.filter_append, filter_nonKey_map_replace]
    have hsuff : (((if ls.any (fun l => pyStartsWith l "ZOHO_ACCESS_TOKEN=") then []
            else ["ZOHO_ACCESS_TOKEN=" ++ a])
          ++ (if ls.any (fun l => pyStartsWith l "ZOHO_TOKEN_EXPIRES_AT=") then []
            else ["ZOHO_TOKEN_EXPIRES_AT=" ++ toString e]))).filter nonKeyLine = [] := by
      by_cases hA : ls.any (fun l => pyStartsWith l "ZOHO_ACCESS_TOKEN=") <;>
        by_cases hE : ls.any (fun l => pyStartsWith l "ZOHO_TOKEN_EXPIRES_AT=") <;>
        simp [hA, hE, nonKeyLine, pyStartsWith_append]
    rw [hsuff, List.append_nil]
  · intro i l hget
    have hi : i < ls.length := by
      by_contra hge
      rw [List.get?_eq_none.mpr (by omega)] at hget
      exact Option.noConfusion hget
    have hmap : (update_env_file a e ls).get? i = some (env_replace_line a e l) := by
      rw [hshape, List.get?_append (by simpa using hi), List.get?_map, hget]
      rfl
    refine ⟨fun hA => ?_, fun hA hE => ?_, fun hn => ?_⟩
    · rw [hmap]
      unfold env_replace_line
      simp [hA]
    · rw [hmap]
      unfold env_replace_line
      simp [hA, hE]
    · rw [hmap]
      unfold env_replace_line
      have hA : pyStartsWith l "ZOHO_ACCESS_TOKEN=" = false := by
        rcases Bool.and_eq_true_iff.mp hn with ⟨h1, _⟩
        simpa using h1
      have hE : pyStartsWith l "ZOHO_TOKEN_EXPIRES_AT=" = false := by
        rcases Bool.and_eq_true_iff.mp hn with ⟨_, h2⟩
        simpa using h2
      simp [hA, hE]
  · rw [hshape]
    by_cases hA : ls.any (fun l => pyStartsWith l "ZOHO_ACCESS_TOKEN=") <;>
      by_cases hE : ls.any (fun l => pyStartsWith l "ZOHO_TOKEN_EXPIRES_AT=") <;>
      simp [hA, hE]
  · rw [hshape]
    have hlen : ls.length = (ls.map (env_replace_line a e)).length := by simp
    rw [hlen, List.drop_left]

/-- Witness for update_env_file_frame at a concrete credential file
with a comment, an unrelated key and a stale access-token line. -/
theorem update_env_file_frame_witness :
    (update_env_file "T2" 99 ["# c", "ZOHO_ACCESS_TOKEN=old", "X=1"]).filter nonKeyLine
      = ["# c", "X=1"] ∧
    (update_env_file "T2" 99 ["# c", "ZOHO_ACCESS_TOKEN=old", "X=1"]).get? 1
      = some ("ZOHO_ACCESS_TOKEN=" ++ "T2") ∧
    (update_env_file "T2" 99 ["# c", "ZOHO_ACCESS_TOKEN=old", "X=1"]).get? 0 = some "# c" ∧
    (update_env_file "T2" 99 ["# c", "ZOHO_ACCESS_TOKEN=old", "X=1"]).length = 4 ∧
    (update_env_file "T2" 99 ["# c", "ZOHO_ACCESS_TOKEN=old", "X=1"]).drop 3
      = ["ZOHO_TOKEN_EXPIRES_AT=" ++ toString (99 : Int)] := by
  have h := update_env_file_frame "T2" 99 ["# c", "ZOHO_ACCESS_TOKEN=old", "X=1"]
  refine ⟨by decide, ?_, ?_, by simpa using h.2.2.1, by simpa using h.2.2.2⟩
  · exact ((h.2.1 1 "ZOHO_ACCESS_TOKEN=old" rfl).1 (by decide))
  · exact ((h.2.1 0 "# c" rfl).2.2 (by decide))

/-- Helper: when the stripped name splits into at least one token,
splitName yields the first token and the space-joined remainder. -/
theorem splitName_of_parts (nm p : String) (rest : List String)
    (h : pySplit (pyStrip nm) = p :: rest) :
    splitName nm = some (p, pyJoin " " rest) := by
  unfold splitName
  rw [h]
  cases rest with
  | nil => rfl
  | cons y ys => rfl

/-- Claim C4: a matched record whose remote Full_Name equals the
desired name issues no update payload and gets status already_correct,
and running the step a second time from the resulting state does so
again: zero write calls and already_correct both times. -/
theorem process_email_already_correct_idempotent
    (res : Results) (email n : String) (c : ZRec) (cs : List ZRec)
    (u1 u2 : Except String ApiJson)
    (hname : c.full_name = some n) :
    (process_email res email n (.ok ⟨c :: cs⟩) u1).outcome.status = "already_correct" ∧
    (process_email res email n (.ok ⟨c :: cs⟩) u1).payload = none ∧
    (process_email (process_email res email n (.ok ⟨c :: cs⟩) u1).res email n
        (.ok ⟨c :: cs⟩) u2).outcome.status = "already_correct" ∧
    (process_email (process_email res email n (.ok ⟨c :: cs⟩) u1).res email n
        (.ok ⟨c :: cs⟩) u2).payload = none := by
  have key : ∀ (r : Results) (u : Except String ApiJson),
      (process_email r email n (.ok ⟨c :: cs⟩) u).outcome.status = "already_correct" ∧
      (process_email r email n (.ok ⟨c :: cs⟩) u).payload = none := by
    intro r u
    simp only [process_email, search_contact_by_email, hname, Option.getD_some]
    simp [update_contact_name]
  exact ⟨(key res u1).1, (key res u1).2, (key _ u2).1, (key _ u2).2⟩

/-- Witness for process_email_already_correct_idempotent at a concrete
record whose remote name already matches. -/
theorem process_email_already_correct_idempotent_witness :
    (⟨"7", some "Ada", none⟩ : ZRec).full_name = some "Ada" ∧
    (process_email (init_results 1) "a@x.com" "Ada"
        (.ok ⟨[⟨"7", some "Ada", none⟩]⟩) (.ok ⟨[]⟩)).outcome.status = "already_correct" ∧
    (process_email (init_results 1) "a@x.com" "Ada"
        (.ok ⟨[⟨"7", some "Ada", none⟩]⟩) (.ok ⟨[]⟩)).payload = none ∧
    (process_email (process_email (init_results 1) "a@x.com" "Ada"
          (.ok ⟨[⟨"7", some "Ada", none⟩]⟩) (.ok ⟨[]⟩)).res "a@x.com" "Ada"
        (.ok ⟨[⟨"7", some "Ada", none⟩]⟩) (.ok ⟨[]⟩)).outcome.status = "already_correct" ∧
    (process_email (process_email (init_results 1) "a@x.com" "Ada"
          (.ok ⟨[⟨"7", some "Ada", none⟩]⟩) (.ok ⟨[]⟩)).res "a@x.com" "Ada"
        (.ok ⟨[⟨"7", some "Ada", none⟩]⟩) (.ok ⟨[]⟩)).payload = none := by
  have h := process_email_already_correct_idempotent (init_results 1) "a@x.com" "Ada"
    ⟨"7", some "Ada", none⟩ [] (.ok ⟨[]⟩) (.ok ⟨[]⟩) rfl
  exact ⟨rfl, h.1, h.2.1, h.2.2.1, h.2.2.2⟩

/-- Claim C6, counterexample: the desired name consisting of one space
is a non-empty string, yet the code derives no payload at all from it:
name_parts is empty, name_parts[0] raises IndexError, and the update
step fails with no write call issued. -/
theorem whitespace_name_no_payload_counterexample :
    (" " : String) ≠ "" ∧ splitName " " = none ∧
    (update_contact_name (init_results 1) "42" "Bob" " " (.ok ⟨[]⟩)).payload = none ∧
    (update_contact_name (init_results 1) "42" "Bob" " " (.ok ⟨[]⟩)).success = false := by
  decide

/-- Claim C6 as amended: for every desired name with at least one
whitespace-separated token, the issued update payload carries the first
token as First_Name and the space-joined remainder as Last_Name. -/
theorem update_contact_name_payload_split
    (res : Results) (cid cur nm p : String) (rest : List String)
    (u : Except String ApiJson)
    (hne : cur ≠ nm)
    (hsplit : pySplit (pyStrip nm) = p :: rest) :
    (update_contact_name res cid cur nm u).payload = some ⟨cid, p, pyJoin " " rest⟩ := by
  have hb : (cur == nm) = false := by
    simp [hne]
  unfold update_contact_name
  rw [hb, splitName_of_parts nm p rest hsplit]
  cases u with
  | error e => rfl
  | ok j =>
    cases j with
    | mk data =>
      cases data with
      | nil => rfl
      | cons d ds =>
        by_cases hc : (d.code == some "SUCCESS") = true
        · simp [hc]
        · simp only [Bool.not_eq_true] at hc
          simp [hc]

/-- Witness for update_contact_name_payload_split at the three spec
examples: Ada, Ada Lovelace, Grace Brewster Murray. -/
theorem update_contact_name_payload_split_witness :
    ("X" : String) ≠ "Ada" ∧ pySplit (pyStrip "Ada") = ["Ada"] ∧
    (update_contact_name (init_results 1) "42" "X" "Ada" (.ok ⟨[]⟩)).payload
      = some ⟨"42", "Ada", ""⟩ ∧
    (update_contact_name (init_results 1) "42" "X" "Ada Lovelace" (.ok ⟨[]⟩)).payload
      = some ⟨"42", "Ada", "Lovelace"⟩ ∧
    (update_contact_name (init_results 1) "42" "X" "Grace Brewster Murray"
        (.ok ⟨[]⟩)).payload = some ⟨"42", "Grace", "Brewster Murray"⟩ := by
  refine ⟨by decide, by decide, ?_, ?_, ?_⟩
  · rw [update_contact_name_payload_split (init_results 1) "42" "X" "Ada" "Ada" []
      (.ok ⟨[]⟩) (by decide) (by decide)]
    decide
  · rw [update_contact_name_payload_split (init_results 1) "42" "X" "Ada Lovelace" "Ada"
      ["Lovelace"] (.ok ⟨[]⟩) (by decide) (by decide)]
    decide
  · rw [update_contact_name_payload_split (init_results 1) "42" "X" "Grace Brewster Murray"
      "Grace" ["Brewster", "Murray"] (.ok ⟨[]⟩) (by decide) (by decide)]
    decide

/-- Claim C5, counterexample: a 2xx update response whose first data
element lacks code SUCCESS makes the step fail and prints the failure
message, but appends nothing to the run error list, which stays
empty. -/
theorem update_fail_message_not_retained_counterexample :
    (update_contact_name (init_results 1) "42" "Bob" "Alice"
        (.ok ⟨[⟨"42", none, some "FAILURE"⟩]⟩)).success = false ∧
    ("Failed to update name for contact 42")
      ∈ (update_contact_name (init_results 1) "42" "Bob" "Alice"
        (.ok ⟨[⟨"42", none, some "FAILURE"⟩]⟩)).printed ∧
    (update_contact_name (init_results 1) "42" "Bob" "Alice"
        (.ok ⟨[⟨"42", none, some "FAILURE"⟩]⟩)).res.errors = [] := by
  decide

/-- Claim C5 as amended: a matched record whose 2xx update response
lacks the per-element SUCCESS code ends with outcome status error and
the failed-update message naming the record id is printed, but the
message is not appended to the run error list, which is left exactly as
it was. -/
theorem process_email_update_fail_not_retained
    (res : Results) (email n cur : String) (c : ZRec) (cs : List ZRec) (j : ApiJson)
    (p : String) (rest : List String)
    (hfn : c.full_name = some cur)
    (hne : cur ≠ n)
    (hsplit : pySplit (pyStrip n) = p :: rest)
    (hfail : (j.data.head?.bind fun d => d.code) ≠ some "SUCCESS") :
    (process_email res email n (.ok ⟨c :: cs⟩) (.ok j)).outcome.status = "error" ∧
    ("Failed to update name for contact " ++ c.id)
      ∈ (process_email res email n (.ok ⟨c :: cs⟩) (.ok j)).printed ∧
    (process_email res email n (.ok ⟨c :: cs⟩) (.ok j)).res.errors = res.errors := by
  have hb : (cur == n) = false := by
    simp [hne]
  simp only [process_email, search_contact_by_email, hfn, Option.getD_some]
  unfold update_contact_name
  rw [hb, splitName_of_parts n p rest hsplit]
  cases j with
  | mk data =>
    cases data with
    | nil =>
      simp [hne]
    | cons d ds =>
      have hc : (d.code == some "SUCCESS") = false := by
        simp only [List.head?_cons, Option.some_bind] at hfail
        simp [hfail]
      simp [hc, hne]

/-- Witness for process_email_update_fail_not_retained at a concrete
matched record whose update response carries no SUCCESS code. -/
theorem process_email_update_fail_not_retained_witness :
    ("Bob" : String) ≠ "Alice" ∧
    (process_email (init_results 1) "b@x.com" "Alice"
        (.ok ⟨[⟨"42", some "Bob", none⟩]⟩)
        (.ok ⟨[⟨"42", none, some "FAILURE"⟩]⟩)).outcome.status = "error" ∧
    ("Failed to update name for contact " ++ "42")
      ∈ (process_email (init_results 1) "b@x.com" "Alice"
        (.ok ⟨[⟨"42", some "Bob", none⟩]⟩)
        (.ok ⟨[⟨"42", none, some "FAILURE"⟩]⟩)).printed ∧
    (process_email (init_results 1) "b@x.com" "Alice"
        (.ok ⟨[⟨"42", some "Bob", none⟩]⟩)
        (.ok ⟨[⟨"42", none, some "FAILURE"⟩]⟩)).res.errors = (init_results 1).errors := by
  have h := process_email_update_fail_not_retained (init_results 1) "b@x.com" "Alice" "Bob"
    ⟨"42", some "Bob", none⟩ [] ⟨[⟨"42", none, some "FAILURE"⟩]⟩ "Alice" []
    rfl (by decide) (by decide) (by decide)
  exact ⟨by decide, h.1, h.2.1, h.2.2⟩

/-- Helper: case analysis of the accumulator effect of one
update_contact_name call: processed_contacts, total_vendors and
contacts_found are never touched, and exactly one of the three counter
shapes happens, matching the returned boolean and the name
comparison. -/
theorem update_contact_name_res_cases
    (r : Results) (cid cur nm : String) (resp : Except String ApiJson) :
    (update_contact_name r cid cur nm resp).res.processed_contacts = r.processed_contacts ∧
    (update_contact_name r cid cur nm resp).res.total_vendors = r.total_vendors ∧
    (update_contact_name r cid cur nm resp).res.contacts_found = r.contacts_found ∧
    (((update_contact_name r cid cur nm resp).success = true ∧ (cur == nm) = true ∧
        (update_contact_name r cid cur nm resp).res.already_correct = r.already_correct + 1 ∧
        (update_contact_name r cid cur nm resp).res.names_updated = r.names_updated)
      ∨ ((update_contact_name r cid cur nm resp).success = true ∧ (cur == nm) = false ∧
        (update_contact_name r cid cur nm resp).res.already_correct = r.already_correct ∧
        (update_contact_name r cid cur nm resp).res.names_updated = r.names_updated + 1)
      ∨ ((update_contact_name r cid cur nm resp).success = false ∧
        (update_contact_name r cid cur nm resp).res.already_correct = r.already_correct ∧
        (update_contact_name r cid cur nm resp).res.names_updated = r.names_updated)) := by
  unfold update_contact_name
  by_cases hb : (cur == nm) = true
  · simp [hb]
  · simp only [Bool.not_eq_true] at hb
    rcases hsp : splitName nm with _ | ⟨p, last⟩
    · simp [hb, hsp]
    · cases resp with
      | error e => simp [hb, hsp]
      | ok j =>
        cases j with
        | mk data =>
          cases data with
          | nil => simp [hb, hsp]
          | cons d ds =>
            by_cases hc : (d.code == some "SUCCESS") = true
            · simp [hb, hsp, hc]
            · simp only [Bool.not_eq_true] at hc
              simp [hb, hsp, hc]

/-- Helper: case analysis of one process_email call: the outcome list
and total_vendors are untouched, and the appended outcome status
matches the counter deltas: not_found leaves all counters alone, and
each of the three found outcomes bumps contacts_found together with its
own counter. -/
theorem process_email_step_cases (res : Results) (email vn : String)
    (s u : Except String ApiJson) :
    (process_email res email vn s u).res.processed_contacts = res.processed_contacts ∧
    (process_email res email vn s u).res.total_vendors = res.total_vendors ∧
    (((process_email res email vn s u).outcome.status = "not_found" ∧
        (process_email res email vn s u).res.contacts_found = res.contacts_found ∧
        (process_email res email vn s u).res.names_updated = res.names_updated ∧
        (process_email res email vn s u).res.already_correct = res.already_correct)
      ∨ ((process_email res email vn s u).outcome.status = "already_correct" ∧
        (process_email res email vn s u).res.contacts_found = res.contacts_found + 1 ∧
        (process_email res email vn s u).res.names_updated = res.names_updated ∧
        (process_email res email vn s u).res.already_correct = res.already_correct + 1)
      ∨ ((process_email res email vn s u).outcome.status = "updated" ∧
        (process_email res email vn s u).res.contacts_found = res.contacts_found + 1 ∧
        (process_email res email vn s u).res.names_updated = res.names_updated + 1 ∧
        (process_email res email vn s u).res.already_correct = res.already_correct)
      ∨ ((process_email res email vn s u).outcome.status = "error" ∧
        (process_email res email vn s u).res.contacts_found = res.contacts_found + 1 ∧
        (process_email res email vn s u).res.names_updated = res.names_updated ∧
        (process_email res email vn s u).res.already_correct = res.already_correct)) := by
  cases s with
  | error e =>
    simp [process_email, search_contact_by_email]
  | ok j =>
    cases j with
    | mk data =>
      cases data with
      | nil =>
        simp [process_email, search_contact_by_email]
      | cons c cs =>
        have hu := update_contact_name_res_cases
          { res with contacts_found := res.contacts_found + 1 }
          c.id (c.full_name.getD "Unknown") vn u
        simp only [process_email, search_contact_by_email]
        refine ⟨hu.1, hu.2.1, ?_⟩
        rcases hu.2.2.2 with ⟨hs, hbeq, hac, hnu⟩ | ⟨hs, hbeq, hac, hnu⟩ | ⟨hs, hac, hnu⟩
        · have hcur : c.full_name.getD "Unknown" = vn := eq_of_beq hbeq
          right
          left
          refine ⟨?_, hu.2.2.1, hnu, hac⟩
          simp only [hs]
          simp [hcur]
        · have hcur : ¬ (c.full_name.getD "Unknown" = vn) := by
            intro he
            rw [he] at hbeq
            simp at hbeq
          right
          right
          left
          refine ⟨?_, hu.2.2.1, hnu, hac⟩
          simp only [hs]
          simp [hcur]
        · right
          right
          right
          refine ⟨?_, hu.2.2.1, hnu, hac⟩
          simp only [hs]
          simp

/-- Helper: each batch step appends exactly one outcome. -/
theorem batch_step_processed_length (res : Results) (e : RecordEnv) :
    (batch_step res e).processed_contacts.length = res.processed_contacts.length + 1 := by
  have h := (process_email_step_cases res e.email e.vendor_name e.searchResp e.updResp).1
  simp [batch_step, h]

/-- Helper: the batch driver appends one outcome per input record and
never aborts early. -/
theorem run_batch_length (l : List RecordEnv) (res : Results) :
    (run_batch res l).processed_contacts.length = res.processed_contacts.length + l.length := by
  induction l generalizing res with
  | nil => simp [run_batch]
  | cons e rest ih =>
    rw [run_batch, ih, batch_step_processed_length]
    simp only [List.length_cons]
    omega

/-- Claim C1, counterexample: in a three-record batch whose second
record's search call raises a network error, the second outcome is
recorded as not_found, not as error, even though the exception message
is appended to the run error list and the third record is still
processed. -/
theorem search_error_status_counterexample :
    (run_batch (init_results 3)
        [⟨"a@x.com", "Ada", .ok ⟨[⟨"1", some "Ada", none⟩]⟩, .ok ⟨[]⟩⟩,
         ⟨"b@x.com", "Bob", .error "Connection reset", .ok ⟨[]⟩⟩,
         ⟨"c@x.com", "Cy", .ok ⟨[⟨"3", some "Cy", none⟩]⟩, .ok ⟨[]⟩⟩]).processed_contacts.map
      (fun o => o.status) = ["already_correct", "not_found", "already_correct"] ∧
    ("not_found" : String) ≠ "error" ∧
    "Error searching for email b@x.com: Connection reset"
      ∈ (run_batch (init_results 3)
        [⟨"a@x.com", "Ada", .ok ⟨[⟨"1", some "Ada", none⟩]⟩, .ok ⟨[]⟩⟩,
         ⟨"b@x.com", "Bob", .error "Connection reset", .ok ⟨[]⟩⟩,
         ⟨"c@x.com", "Cy", .ok ⟨[⟨"3", some "Cy", none⟩]⟩, .ok ⟨[]⟩⟩]).errors := by
  decide

/-- Claim C1 as amended: when a record's search call raises, the
exception message is appended to the run error list, the batch driver
still processes every subsequent record (one appended outcome per
record), but the failed record's outcome status is not_found, exactly
as for a record with no match, not error. -/
theorem search_error_isolation_amended
    (res : Results) (e : RecordEnv) (rest : List RecordEnv) (m : String)
    (hs : e.searchResp = .error m) :
    (process_email res e.email e.vendor_name e.searchResp e.updResp).outcome.status
      = "not_found" ∧
    ("Error searching for email " ++ e.email ++ ": " ++ m) ∈ (batch_step res e).errors ∧
    run_batch res (e :: rest) = run_batch (batch_step res e) rest ∧
    (run_batch res (e :: rest)).processed_contacts.length
      = res.processed_contacts.length + (rest.length + 1) := by
  refine ⟨?_, ?_, rfl, ?_⟩
  · simp [hs, process_email, search_contact_by_email]
  · simp [batch_step, hs, process_email, search_contact_by_email]
  · rw [run_batch_length]
    simp

/-- Witness for search_error_isolation_amended at a concrete two-record
batch whose first search raises. -/
theorem search_error_isolation_amended_witness :
    (⟨"b@x.com", "Bob", .error "boom", .ok ⟨[]⟩⟩ : RecordEnv).searchResp = .error "boom" ∧
    (process_email (init_results 2) "b@x.com" "Bob" (.error "boom") (.ok ⟨[]⟩)).outcome.status
      = "not_found" ∧
    ("Error searching for email " ++ "b@x.com" ++ ": " ++ "boom")
      ∈ (batch_step (init_results 2) ⟨"b@x.com", "Bob", .error "boom", .ok ⟨[]⟩⟩).errors ∧
    (run_batch (init_results 2)
        [⟨"b@x.com", "Bob", .error "boom", .ok ⟨[]⟩⟩,
         ⟨"c@x.com", "Cy", .ok ⟨[]⟩, .ok ⟨[]⟩⟩]).processed_contacts.length = 2 := by
  have h := search_error_isolation_amended (init_results 2)
    ⟨"b@x.com", "Bob", .error "boom", .ok ⟨[]⟩⟩
    [⟨"c@x.com", "Cy", .ok ⟨[]⟩, .ok ⟨[]⟩⟩] "boom" rfl
  exact ⟨rfl, h.1, h.2.1, by simpa using h.2.2.2⟩

/-- Claim C7, counterexample: the local-file loader does not skip a row
whose email cell trims to the empty string; the row is stored under the
empty-string key, unlike the URL loader which skips it. -/
theorem file_loader_empty_key_counterexample :
    pyLower (pyStrip " ") = "" ∧
    load_from_file [[("Contact email", " "), ("Name", "Bob")]]
      = .ok [("", ⟨"Bob", "", "", ""⟩)] ∧
    parse_csv_string [[("Contact email", " "), ("Name", "Bob")]] = [] := by
  decide

/-- Helper: looking up a key absent from the map after appending its
new entry finds the appended value. -/
theorem lookup_append_single_of_none (k : String) (v : Vendor) :
    ∀ m : VendorMap, m.lookup k = none → (m ++ [(k, v)]).lookup k = some v := by
  intro m
  induction m with
  | nil =>
    intro _
    simp
  | cons kv m ih =>
    intro h
    cases kv with
    | mk a b =>
      by_cases hka : (k == a) = true
      · simp [List.lookup_cons, hka] at h
      · have hka' : (k == a) = false := by
          simpa using hka
        simp only [List.lookup_cons, hka'] at h
        simp only [List.cons_append, List.lookup_cons, hka']
        exact ih h

/-- Helper: the replace-in-place branch of a Python dict assignment
makes the key map to the new value whenever the key was present. -/
theorem lookup_map_replace (k : String) (v : Vendor) :
    ∀ m : VendorMap, (m.lookup k).isSome = true →
      (m.map fun kv => if kv.1 == k then (k, v) else kv).lookup k = some v := by
  intro m
  induction m with
  | nil =>
    intro h
    simp at h
  | cons kv m ih =>
    intro h
    cases kv with
    | mk a b =>
      by_cases hak : (a == k) = true
      · simp only [List.map_cons]
        rw [show (if ((a, b).1 == k) = true then (k, v) else (a, b)) = (k, v) from by
          simp [hak]]
        simp
      · have hak' : (a == k) = false := by
          simpa using hak
        have hka : (k == a) = false := by
          simp only [beq_eq_false_iff_ne] at hak' ⊢
          exact fun he => hak' he.symm
        have h' : (m.lookup k).isSome = true := by
          simpa [List.lookup_cons, hka] using h
        simp only [List.map_cons]
        rw [show (if ((a, b).1 == k) = true then (k, v) else (a, b)) = (a, b) from by
          simp [hak']]
        simp only [List.lookup_cons, hka]
        exact ih h'

/-- Helper: after a Python dict assignment the assigned key maps to the
assigned value, whether it replaced an existing entry or appended. -/
theorem dictInsert_lookup (m : VendorMap) (k : String) (v : Vendor) :
    (dictInsert m k v).lookup k = some v := by
  unfold dictInsert
  by_cases h : (m.lookup k).isSome = true
  · rw [if_pos h]
    exact lookup_map_replace k v m h
  · have hnone : m.lookup k = none := by
      cases hm : m.lookup k
      · rfl
      · rw [hm] at h
        simp at h
    rw [if_neg h]
    exact lookup_append_single_of_none k v m hnone

/-- Claim C7 as amended: both loaders key each row by the stripped,
lowered email cell, with all four vendor fields stripped and missing
optional columns defaulting to the empty string: the file loader
inserts every row at that key unconditionally, and the URL loader
inserts every row whose key is non-empty, the inserted key afterwards
looking up the row's vendor record; but a row whose key is empty after
stripping is silently skipped only by the URL loader
(parse_csv_string), while the file loader (_load_from_file) has no such
guard and stores it under the empty-string key. -/
theorem loader_row_keying_amended
    (r : Row) (rest : List Row) (acc : VendorMap) (ce nm : String)
    (hce : r.lookup "Contact email" = some ce)
    (hnm : r.lookup "Name" = some nm) :
    fileStep acc r = .ok (dictInsert acc (pyLower (pyStrip ce))
      ⟨pyStrip nm, pyStrip (rowGet r "Nickname" ""), pyStrip ce,
        pyStrip (rowGet r "Emails for payment receipts" "")⟩) ∧
    (pyLower (pyStrip ce) ≠ "" →
      csvStep acc r = dictInsert acc (pyLower (pyStrip ce))
        ⟨pyStrip nm, pyStrip (rowGet r "Nickname" ""), pyStrip ce,
          pyStrip (rowGet r "Emails for payment receipts" "")⟩) ∧
    (pyLower (pyStrip ce) = "" →
      csvStep acc r = acc ∧
      parse_csv_string (r :: rest) = parse_csv_string rest) ∧
    (dictInsert acc (pyLower (pyStrip ce))
      ⟨pyStrip nm, pyStrip (rowGet r "Nickname" ""), pyStrip ce,
        pyStrip (rowGet r "Emails for payment receipts" "")⟩).lookup (pyLower (pyStrip ce))
      = some ⟨pyStrip nm, pyStrip (rowGet r "Nickname" ""), pyStrip ce,
          pyStrip (rowGet r "Emails for payment receipts" "")⟩ ∧
    (r.lookup "Nickname" = none → rowGet r "Nickname" "" = "") ∧
    (r.lookup "Emails for payment receipts" = none →
      rowGet r "Emails for payment receipts" "" = "") := by
  refine ⟨?_, ?_, ?_, dictInsert_lookup acc _ _, ?_, ?_⟩
  · simp [fileStep, hce, hnm]
  · intro h
    simp [csvStep, rowGet, hce, hnm, h]
  · intro h
    have hskip : ∀ m : VendorMap, csvStep m r = m := by
      intro m
      simp [csvStep, rowGet, hce, h]
    refine ⟨hskip acc, ?_⟩
    show List.foldl csvStep [] (r :: rest) = parse_csv_string rest
    rw [List.foldl_cons, hskip]
    rfl
  · intro h
    simp [rowGet, h]
  · intro h
    simp [rowGet, h]

/-- Witness for loader_row_keying_amended at a concrete row with a
mixed-case, padded email, a padded name and no optional columns. -/
theorem loader_row_keying_amended_witness :
    ([( "Contact email", " Ada@X.com "), ("Name", " Ada Lovelace ")] : Row).lookup
      "Contact email" = some " Ada@X.com " ∧
    pyLower (pyStrip " Ada@X.com ") = "ada@x.com" ∧
    csvStep [] [("Contact email", " Ada@X.com "), ("Name", " Ada Lovelace ")]
      = [("ada@x.com", ⟨"Ada Lovelace", "", "Ada@X.com", ""⟩)] ∧
    fileStep [] [("Contact email", " Ada@X.com "), ("Name", " Ada Lovelace ")]
      = .ok [("ada@x.com", ⟨"Ada Lovelace", "", "Ada@X.com", ""⟩)] ∧
    ([("ada@x.com", (⟨"Ada Lovelace", "", "Ada@X.com", ""⟩ : Vendor))] : VendorMap).lookup
      "ada@x.com" = some ⟨"Ada Lovelace", "", "Ada@X.com", ""⟩ ∧
    rowGet [("Contact email", " Ada@X.com "), ("Name", " Ada Lovelace ")] "Nickname" ""
      = "" := by
  have h := loader_row_keying_amended
    [("Contact email", " Ada@X.com "), ("Name", " Ada Lovelace ")] [] []
    " Ada@X.com " " Ada Lovelace " rfl rfl
  refine ⟨rfl, by decide, ?_, ?_, ?_, h.2.2.2.2.1 rfl⟩
  · rw [h.2.1 (by decide)]
    decide
  · rw [h.1]
    decide
  · have h4 := h.2.2.2.1
    rw [show (dictInsert [] (pyLower (pyStrip " Ada@X.com "))
        ⟨pyStrip " Ada Lovelace ",
          pyStrip (rowGet [("Contact email", " Ada@X.com "), ("Name", " Ada Lovelace ")]
            "Nickname" ""),
          pyStrip " Ada@X.com ",
          pyStrip (rowGet [("Contact email", " Ada@X.com "), ("Name", " Ada Lovelace ")]
            "Emails for payment receipts" "")⟩ : VendorMap)
      = [("ada@x.com", (⟨"Ada Lovelace", "", "Ada@X.com", ""⟩ : Vendor))] from by decide,
      show pyLower (pyStrip " Ada@X.com ") = "ada@x.com" from by decide] at h4
    exact h4.trans (by decide)

/-- Helper: one batch step preserves the counter bookkeeping. -/
theorem batch_step_preserves_invariant (res : Results) (e : RecordEnv)
    (h : counters_invariant res) : counters_invariant (batch_step res e) :=
  by
  obtain ⟨h1, h2⟩ := h
  have hc := process_email_step_cases res e.email e.vendor_name e.searchResp e.updResp
  obtain ⟨hpc, _, hcases⟩ := hc
  unfold batch_step counters_invariant
  simp only [List.countP_append, List.length_append, hpc]
  rcases hcases with ⟨hst, hcf, hnu, hac⟩ | ⟨hst, hcf, hnu, hac⟩ |
    ⟨hst, hcf, hnu, hac⟩ | ⟨hst, hcf, hnu, hac⟩ <;>
    rw [hcf, hnu, hac] <;>
    simp [List.countP_cons, hst] <;>
    omega

/-- Claim C10: after any number of completed per-record steps starting
from a fresh run, contacts_found equals names_updated plus
already_correct plus the number of error outcomes, and the number of
appended outcomes equals contacts_found plus the number of not_found
outcomes. -/
theorem run_batch_counters_invariant (n : Nat) (l : List RecordEnv) :
    counters_invariant (run_batch (init_results n) l) := by
  have general : ∀ (res : Results), counters_invariant res →
      counters_invariant (run_batch res l) := by
    induction l with
    | nil =>
      intro res h
      exact h
    | cons e rest ih =>
      intro res h
      exact ih (batch_step res e) (batch_step_preserves_invariant res e h)
  refine general (init_results n) ?_
  constructor <;> rfl

end ZohoCRM
